import Mathlib

/-!
# Escrow-initialization program: shallow embedding and verification

Shallow embedding of the Solana escrow program's `Processor`
(`src/src/processor.rs`).  The repository ships only `processor.rs`; the
sibling modules it imports (`instruction.rs`, `state.rs`, `error.rs`) and
the external collaborators (the Solana runtime's `invoke`, the SPL token
program, the rent sysvar, `find_program_address`) are modelled from the
spec at their documented boundaries, as noted in the doc comment of each
such definition.

Conventions: bytes are `Nat` (values < 256 on real inputs), public keys
(`Pubkey`) are 32-byte lists, `u64` amounts are `Nat` (hypotheses
`amount < 2 ^ 64` appear where the little-endian 8-byte encoding must round
trip).  Account state is passed explicitly: `process_init_escrow` returns
the result code, the post-call account list (with any staged writes
applied), and the trace of delegation instructions issued to the token
program.
-/

/-- A 32-byte public identity, represented as its bytes. -/
abbrev Pubkey := List Nat

/-- One entry of the caller-supplied account-reference list: the fields of
Solana's `AccountInfo` that `process_init_escrow` reads or writes
(`key`, `is_signer`, `lamports`, `data`, `owner`). -/
structure AccountInfo where
  key : Pubkey
  is_signer : Bool
  lamports : Nat
  data : List Nat
  owner : Pubkey
deriving DecidableEq

/-- Error values surfaced by `process_init_escrow`.  The generic
constructors keep the names `processor.rs` uses from `solana_program`
(`MissingRequiredSignature`, `IncorrectProgramId`,
`AccountAlreadyInitialized`; `NotEnoughAccountKeys` is what
`next_account_info` returns on an exhausted iterator and
`InvalidAccountData` what `Pack` decoding returns on a wrong-length
buffer).  `NotRentExempt` models `EscrowError::NotRentExempt.into()`
(`error.rs` is not in `src/`; the spec requires it to be a domain-specific
error distinct from the generic ones, hence a dedicated constructor).
`InvalidInstruction` is the dispatcher's decode failure and
`DelegationFailed` the spec's name for a failure of the external
custody-delegation call propagated by `invoke(...)?`. -/
inductive ProgramError where
  | MissingRequiredSignature
  | IncorrectProgramId
  | NotEnoughAccountKeys
  | AccountAlreadyInitialized
  | InvalidAccountData
  | InvalidInstruction
  | NotRentExempt
  | DelegationFailed
deriving DecidableEq

/-- Modelled from the spec: the rent-exemption oracle is an external
collaborator exposing `is_exempt(balance, byte_length) -> bool`, consumed
read-only (spec §6).  `Rent::from_account_info` parsing internals are out
of scope (spec §1), so the parsed oracle is passed alongside the account
list while the sysvar account itself is still consumed positionally. -/
structure Rent where
  is_exempt : Nat → Nat → Bool

/-- The persisted escrow record, field for field the `Escrow` state struct
that `processor.rs` populates (`state.rs` is not in `src/`; the field list
and order follow spec §3). -/
structure Escrow where
  is_initialized : Bool
  initializer_pubkey : Pubkey
  temp_token_account_pubkey : Pubkey
  initializer_token_to_receive_account_pubkey : Pubkey
  expected_amount : Nat
deriving DecidableEq

namespace Escrow

/-- Byte length of the packed record: 1 flag byte + three 32-byte keys +
an 8-byte little-endian `u64` (spec §3, §6). -/
def LEN : Nat := 105

end Escrow

/-- Little-endian 8-byte encoding of a `u64` value. -/
def u64LE (n : Nat) : List Nat :=
  [n % 256, n / 256 % 256, n / 256 ^ 2 % 256, n / 256 ^ 3 % 256,
   n / 256 ^ 4 % 256, n / 256 ^ 5 % 256, n / 256 ^ 6 % 256, n / 256 ^ 7 % 256]

/-- Little-endian value of a byte list. -/
def leU64 (bs : List Nat) : Nat :=
  bs.foldr (fun b acc => b + 256 * acc) 0

namespace Escrow

/-- Modelled from the spec: the fixed-width record layout (`state.rs` not
in `src/`): the fields of §3 in order — 1 byte `is_initialized`, three
32-byte identities, 8-byte little-endian `expected_amount` (spec §6,
"Persisted record layout"). -/
def pack (e : Escrow) : List Nat :=
  (if e.is_initialized then 1 else 0) ::
    (e.initializer_pubkey ++ (e.temp_token_account_pubkey ++
      (e.initializer_token_to_receive_account_pubkey ++ u64LE e.expected_amount)))

/-- Modelled from the spec: `Escrow::unpack_unchecked` (`state.rs` not in
`src/`).  The `Pack` trait rejects a buffer whose length differs from
`LEN` with `InvalidAccountData`; within a well-sized buffer decoding is
lenient — all-zero or garbage bytes are a valid uninitialized record, with
`is_initialized` read as "first byte equals 1" as the authoritative
discriminant (spec §6, §9). -/
def unpack_unchecked (src : List Nat) : Except ProgramError Escrow :=
  if src.length = LEN then
    Except.ok
      { is_initialized := src.headD 0 == 1
        initializer_pubkey := (src.drop 1).take 32
        temp_token_account_pubkey := (src.drop 33).take 32
        initializer_token_to_receive_account_pubkey := (src.drop 65).take 32
        expected_amount := leU64 ((src.drop 97).take 8) }
  else Except.error ProgramError.InvalidAccountData

end Escrow

/-- Modelled from the spec: the expected asset-custody service's fixed
identity, `spl_token::id()` — an external constant, represented by a fixed
32-byte value. -/
def spl_token_id : Pubkey := List.replicate 32 6

/-- The domain-separation tag `b"escrow"` from `processor.rs` line 83. -/
def escrowTag : List Nat := [101, 115, 99, 114, 111, 119]

/-- Modelled from the spec: `Pubkey::find_program_address` — a
deterministic derivation of an identity from the seed list and the
program's identity (spec §3, "DerivedAuthority"); its hash internals are
external, so it is embedded as a fixed injective-by-concatenation function
together with a bump seed. -/
def find_program_address (seeds : List (List Nat)) (program_id : Pubkey) :
    Pubkey × Nat :=
  (seeds.foldr (fun s acc => s ++ acc) program_id, 255)

/-- The authority kinds of `spl_token::instruction::AuthorityType`;
`processor.rs` uses `AccountOwner`. -/
inductive AuthorityType where
  | MintTokens
  | FreezeAccount
  | AccountOwner
  | CloseAccount
deriving DecidableEq

/-- Modelled from the spec: the instruction built by
`spl_token::instruction::set_authority` at its boundary — the asset-custody
service's `change_authority(target_account, new_authority,
current_authority, authorizing_signers)` call (spec §6), carried out over
the given token program. -/
structure SetAuthorityIx where
  token_program : Pubkey
  account : Pubkey
  new_authority : Option Pubkey
  authority_type : AuthorityType
  current_authority : Pubkey
  signers : List Pubkey
deriving DecidableEq

/-- `spl_token::instruction::set_authority`, argument for argument as
`processor.rs` lines 90–104 calls it. -/
def set_authority (token_program_id : Pubkey) (owned_pubkey : Pubkey)
    (new_authority : Option Pubkey) (authority_type : AuthorityType)
    (owner_pubkey : Pubkey) (signer_pubkeys : List Pubkey) : SetAuthorityIx :=
  { token_program := token_program_id
    account := owned_pubkey
    new_authority := new_authority
    authority_type := authority_type
    current_authority := owner_pubkey
    signers := signer_pubkeys }

/-- `next_account_info`: take the account at position `i` of the list,
failing with `NotEnoughAccountKeys` when the iterator is exhausted. -/
def nextAccount (accounts : List AccountInfo) (i : Nat) :
    Except ProgramError AccountInfo :=
  match accounts.get? i with
  | some a => Except.ok a
  | none => Except.error ProgramError.NotEnoughAccountKeys

deriving instance DecidableEq for Except

/-- Everything one call to `process_init_escrow` produces: the result code,
the post-call account list with any staged writes applied (raw, before the
environment's all-or-nothing commit), and the trace of delegation
instructions issued to the token program. -/
structure InitOutcome where
  result : Except ProgramError Unit
  accounts : List AccountInfo
  delegations : List SetAuthorityIx
deriving DecidableEq

/-- `Processor::process_init_escrow` (`processor.rs` lines 30–119),
statement for statement: consume accounts 0–4 positionally, run the four
checks in source order (signer, receiving-account owner, rent exemption,
double initialization), populate and pack the record into the escrow
account's data (line 82 — note this staged write happens before the
delegation call), derive the program authority from `b"escrow"`, consume
the token-program account, build the `set_authority` instruction and
`invoke` it.  The external delegation call (not in `src/`) is modelled by
the environment flag `delegationOk`; when it is false the call's failure
propagates as `DelegationFailed` (spec §7). -/
def process_init_escrow (accounts : List AccountInfo) (amount : Nat)
    (program_id : Pubkey) (rent : Rent) (delegationOk : Bool) : InitOutcome :=
  match nextAccount accounts 0 with
  | Except.error e => ⟨Except.error e, accounts, []⟩
  | Except.ok initializer =>
    if !initializer.is_signer then
      ⟨Except.error ProgramError.MissingRequiredSignature, accounts, []⟩
    else
      match nextAccount accounts 1 with
      | Except.error e => ⟨Except.error e, accounts, []⟩
      | Except.ok temp_token_account =>
        match nextAccount accounts 2 with
        | Except.error e => ⟨Except.error e, accounts, []⟩
        | Except.ok token_to_receive_account =>
          if token_to_receive_account.owner ≠ spl_token_id then
            ⟨Except.error ProgramError.IncorrectProgramId, accounts, []⟩
          else
            match nextAccount accounts 3 with
            | Except.error e => ⟨Except.error e, accounts, []⟩
            | Except.ok escrow_account =>
              match nextAccount accounts 4 with
              | Except.error e => ⟨Except.error e, accounts, []⟩
              | Except.ok _rent_sysvar_account =>
                if !rent.is_exempt escrow_account.lamports
                    escrow_account.data.length then
                  ⟨Except.error ProgramError.NotRentExempt, accounts, []⟩
                else
                  match Escrow.unpack_unchecked escrow_account.data with
                  | Except.error e => ⟨Except.error e, accounts, []⟩
                  | Except.ok escrow_info =>
                    if escrow_info.is_initialized then
                      ⟨Except.error ProgramError.AccountAlreadyInitialized,
                        accounts, []⟩
                    else
                      let escrow_info' : Escrow :=
                        { escrow_info with
                            is_initialized := true
                            initializer_pubkey := initializer.key
                            temp_token_account_pubkey := temp_token_account.key
                            initializer_token_to_receive_account_pubkey :=
                              token_to_receive_account.key
                            expected_amount := amount }
                      let accounts1 := accounts.set 3
                        { escrow_account with data := Escrow.pack escrow_info' }
                      let pda := (find_program_address [escrowTag] program_id).1
                      match nextAccount accounts 5 with
                      | Except.error e => ⟨Except.error e, accounts1, []⟩
                      | Except.ok token_program =>
                        let owner_change_ix := set_authority
                          token_program.key
                          temp_token_account.key
                          (some pda)
                          AuthorityType.AccountOwner
                          initializer.key
                          [initializer.key]
                        if delegationOk then
                          ⟨Except.ok (), accounts1, [owner_change_ix]⟩
                        else
                          ⟨Except.error ProgramError.DelegationFailed,
                            accounts1, [owner_change_ix]⟩

/-- Modelled from the spec: the surrounding execution environment's
all-or-nothing call semantics (spec §4.2: atomic rollback across the
record write and the delegation call "is guaranteed by the surrounding
execution environment's all-or-nothing call semantics, not by this
component").  A failing call leaves every account byte-identical to its
pre-call state; a successful call commits the staged writes.  The trace
of issued delegation instructions is kept as observed attempts. -/
def init_escrow_call (accounts : List AccountInfo) (amount : Nat)
    (program_id : Pubkey) (rent : Rent) (delegationOk : Bool) : InitOutcome :=
  let raw := process_init_escrow accounts amount program_id rent delegationOk
  match raw.result with
  | Except.ok _ => raw
  | Except.error e => ⟨Except.error e, accounts, raw.delegations⟩

/-- The record-storage bytes at position 3 of an account list (the escrow
account), defaulting to `[]` when the list is shorter. -/
def escrowDataAt (accounts : List AccountInfo) : List Nat :=
  match accounts.get? 3 with
  | some a => a.data
  | none => []

/-- The operation variants of `EscrowInstruction` (`instruction.rs` not in
`src/`; the closed set currently has the single `InitEscrow` member,
spec §2). -/
inductive EscrowInstruction where
  | InitEscrow (amount : Nat)

namespace EscrowInstruction

/-- Modelled from the spec: `EscrowInstruction::unpack` (`instruction.rs`
not in `src/`): byte 0 is the operation tag (0 = Initialize), bytes 1..9
the little-endian `u64` amount; an unrecognized tag or insufficient length
is a decode failure (spec §6). -/
def unpack (input : List Nat) : Except ProgramError EscrowInstruction :=
  match input with
  | [] => Except.error ProgramError.InvalidInstruction
  | tag :: rest =>
    if tag = 0 then
      if 8 ≤ rest.length then
        Except.ok (EscrowInstruction.InitEscrow (leU64 (rest.take 8)))
      else Except.error ProgramError.InvalidInstruction
    else Except.error ProgramError.InvalidInstruction

end EscrowInstruction

/-- `Processor::process` (`processor.rs` lines 16–28): decode the opcode
payload and dispatch to the matching handler. -/
def Processor.process (program_id : Pubkey) (accounts : List AccountInfo)
    (instruction_data : List Nat) (rent : Rent) (delegationOk : Bool) :
    InitOutcome :=
  match EscrowInstruction.unpack instruction_data with
  | Except.error e => ⟨Except.error e, accounts, []⟩
  | Except.ok (EscrowInstruction.InitEscrow amount) =>
    process_init_escrow accounts amount program_id rent delegationOk

/-- Spec-side definition, stated from the spec's words (§4.2, §7): the
error identifying the first violated precondition in the fixed validation
order — signer check, custody-service ownership of the receiving account,
rent exemption, double initialization.  Used to compare the code's
fail-fast behaviour against the spec's ordering.  It is only meaningful
for inputs on which at least one of the four checks is violated; the final
branch is then the double-initialization violation. -/
def firstViolation (a0 a2 a3 : AccountInfo) (rent : Rent) : ProgramError :=
  if a0.is_signer = false then ProgramError.MissingRequiredSignature
  else if a2.owner ≠ spl_token_id then ProgramError.IncorrectProgramId
  else if rent.is_exempt a3.lamports a3.data.length = false then
    ProgramError.NotRentExempt
  else ProgramError.AccountAlreadyInitialized

/-!
## Concrete sample inputs

A fully valid six-account call used to exercise the theorems on closed
inputs, plus the deviating single accounts each negative scenario needs.
-/

/-- Sample initializer identity. -/
def kInit : Pubkey := List.replicate 32 1

/-- Sample holding (temp token) account identity. -/
def kTemp : Pubkey := List.replicate 32 2

/-- Sample receiving-account identity. -/
def kRecv : Pubkey := List.replicate 32 3

/-- Sample escrow-record storage identity. -/
def kEscrowAcc : Pubkey := List.replicate 32 4

/-- Sample rent-sysvar identity. -/
def kRentSysvar : Pubkey := List.replicate 32 5

/-- Sample token-program identity. -/
def kTokenProg : Pubkey := List.replicate 32 7

/-- Sample executing-program identity. -/
def kProgram : Pubkey := List.replicate 32 8

/-- An identity that is none of the distinguished ones. -/
def kOther : Pubkey := List.replicate 32 9

/-- The decoded all-zero (uninitialized) record. -/
def escrowZero : Escrow :=
  ⟨false, List.replicate 32 0, List.replicate 32 0, List.replicate 32 0, 0⟩

/-- Position 0: the signing initializer. -/
def sampleInitializer : AccountInfo := ⟨kInit, true, 10, [], kOther⟩

/-- Position 1: the holding account. -/
def sampleTemp : AccountInfo := ⟨kTemp, false, 20, [], spl_token_id⟩

/-- Position 2: the receiving account, owned by the custody service. -/
def sampleRecv : AccountInfo := ⟨kRecv, false, 30, [], spl_token_id⟩

/-- Position 3: fresh record storage — all-zero bytes, funded. -/
def sampleEscrowAcc : AccountInfo :=
  ⟨kEscrowAcc, false, 1000000, List.replicate Escrow.LEN 0, kOther⟩

/-- Position 4: the rent-sysvar account. -/
def sampleRentAcc : AccountInfo := ⟨kRentSysvar, false, 1, [], kOther⟩

/-- Position 5: the token-program account. -/
def sampleTokenProg : AccountInfo := ⟨kTokenProg, false, 1, [], kOther⟩

/-- The fully valid six-account reference list. -/
def sampleAccounts : List AccountInfo :=
  [sampleInitializer, sampleTemp, sampleRecv, sampleEscrowAcc, sampleRentAcc,
   sampleTokenProg]

/-- The initializer without a verified signature. -/
def sampleUnsigned : AccountInfo := ⟨kInit, false, 10, [], kOther⟩

/-- A receiving account owned by the wrong custody service. -/
def sampleRecvWrongOwner : AccountInfo := ⟨kRecv, false, 30, [], kOther⟩

/-- A record storage already marked initialized: the packed bytes of a
previously persisted record. -/
def sampleEscrowAccUsed : AccountInfo :=
  ⟨kEscrowAcc, false, 1000000, Escrow.pack ⟨true, kOther, kTemp, kRecv, 42⟩,
    kOther⟩

/-- A rent oracle under which every balance is exempt. -/
def rentAlways : Rent := ⟨fun _ _ => true⟩

/-- A rent oracle under which no balance is exempt. -/
def rentNever : Rent := ⟨fun _ _ => false⟩

/-!
## Record-layout lemmas

The packed record is 105 bytes for genuine 32-byte identities and decodes
back to the record that was packed (the `u64` amount round-trips below
`2 ^ 64`).
-/

/-- The little-endian `u64` encoding decodes to its value. -/
theorem leU64_u64LE (n : Nat) (h : n < 2 ^ 64) : leU64 (u64LE n) = n := by
  simp only [u64LE, leU64, List.foldr]
  omega

/-- The `u64` encoding is 8 bytes long. -/
theorem u64LE_length (n : Nat) : (u64LE n).length = 8 := rfl

/-- A record with 32-byte identities packs to exactly `Escrow.LEN`
bytes. -/
theorem Escrow.pack_length (e : Escrow)
    (h1 : e.initializer_pubkey.length = 32)
    (h2 : e.temp_token_account_pubkey.length = 32)
    (h3 : e.initializer_token_to_receive_account_pubkey.length = 32) :
    (Escrow.pack e).length = Escrow.LEN := by
  simp [Escrow.pack, Escrow.LEN, h1, h2, h3, u64LE_length]

/-- Decoding a packed record recovers it. -/
theorem Escrow.unpack_unchecked_pack (e : Escrow)
    (h1 : e.initializer_pubkey.length = 32)
    (h2 : e.temp_token_account_pubkey.length = 32)
    (h3 : e.initializer_token_to_receive_account_pubkey.length = 32)
    (ha : e.expected_amount < 2 ^ 64) :
    Escrow.unpack_unchecked (Escrow.pack e) = Except.ok e := by
  obtain ⟨b, k0, k1, k2, a⟩ := e
  simp only at h1 h2 h3 ha
  have hlen := Escrow.pack_length ⟨b, k0, k1, k2, a⟩ h1 h2 h3
  have hd97 : (k0 ++ (k1 ++ (k2 ++ u64LE a))).drop 96 = u64LE a := by
    rw [show (96 : Nat) = 32 + (32 + 32) from rfl, ← List.drop_drop,
      ← List.drop_drop, List.drop_left' h1, List.drop_left' h2,
      List.drop_left' h3]
  have hd65 : (k0 ++ (k1 ++ (k2 ++ u64LE a))).drop 64 = k2 ++ u64LE a := by
    rw [show (64 : Nat) = 32 + 32 from rfl, ← List.drop_drop,
      List.drop_left' h1, List.drop_left' h2]
  have ht8 : (u64LE a).take 8 = u64LE a := by
    rw [← u64LE_length a, List.take_length]
  rw [Escrow.unpack_unchecked, if_pos hlen]
  show Except.ok
      ({ is_initialized :=
          ((if b then 1 else 0) ::
            (k0 ++ (k1 ++ (k2 ++ u64LE a)))).headD 0 == 1
         initializer_pubkey :=
          ((k0 ++ (k1 ++ (k2 ++ u64LE a))).drop 0).take 32
         temp_token_account_pubkey :=
          ((k0 ++ (k1 ++ (k2 ++ u64LE a))).drop 32).take 32
         initializer_token_to_receive_account_pubkey :=
          ((k0 ++ (k1 ++ (k2 ++ u64LE a))).drop 64).take 32
         expected_amount :=
          leU64 (((k0 ++ (k1 ++ (k2 ++ u64LE a))).drop 96).take 8) } :
        Escrow) = Except.ok ⟨b, k0, k1, k2, a⟩
  rw [hd97, hd65, ht8, List.drop_zero, List.take_left' h1,
    List.drop_left' h1, List.take_left' h2, List.take_left' h3,
    leU64_u64LE a ha]
  cases b <;> rfl

/-!
## Evaluation lemmas

One lemma per exit path of `process_init_escrow`, each fixing just enough
of the account-list shape to reach that path.
-/

/-- Exit path of the signer check (`processor.rs` lines 42–44). -/
theorem process_init_escrow_not_signer (a0 : AccountInfo)
    (rest : List AccountInfo) (amount : Nat) (pid : Pubkey) (rent : Rent)
    (dOk : Bool) (h0 : a0.is_signer = false) :
    process_init_escrow (a0 :: rest) amount pid rent dOk =
      ⟨Except.error ProgramError.MissingRequiredSignature, a0 :: rest, []⟩ := by
  simp [process_init_escrow, nextAccount, h0]

/-- Exit path of the receiving-account ownership check (`processor.rs`
lines 59–61). -/
theorem process_init_escrow_wrong_owner (a0 a1 a2 : AccountInfo)
    (rest : List AccountInfo) (amount : Nat) (pid : Pubkey) (rent : Rent)
    (dOk : Bool) (h0 : a0.is_signer = true) (h2 : a2.owner ≠ spl_token_id) :
    process_init_escrow (a0 :: a1 :: a2 :: rest) amount pid rent dOk =
      ⟨Except.error ProgramError.IncorrectProgramId, a0 :: a1 :: a2 :: rest,
        []⟩ := by
  simp [process_init_escrow, nextAccount, h0, h2]

/-- Exit path of the rent-exemption check (`processor.rs` lines 66–68). -/
theorem process_init_escrow_not_exempt (a0 a1 a2 a3 a4 : AccountInfo)
    (rest : List AccountInfo) (amount : Nat) (pid : Pubkey) (rent : Rent)
    (dOk : Bool) (h0 : a0.is_signer = true) (h2 : a2.owner = spl_token_id)
    (h3 : rent.is_exempt a3.lamports a3.data.length = false) :
    process_init_escrow (a0 :: a1 :: a2 :: a3 :: a4 :: rest) amount pid rent
        dOk =
      ⟨Except.error ProgramError.NotRentExempt,
        a0 :: a1 :: a2 :: a3 :: a4 :: rest, []⟩ := by
  simp [process_init_escrow, nextAccount, h0, h2, h3]

/-- Exit path of the double-initialization check (`processor.rs` lines
70–73). -/
theorem process_init_escrow_already (a0 a1 a2 a3 a4 : AccountInfo)
    (rest : List AccountInfo) (amount : Nat) (pid : Pubkey) (rent : Rent)
    (dOk : Bool) (esc : Escrow) (h0 : a0.is_signer = true)
    (h2 : a2.owner = spl_token_id)
    (h3 : rent.is_exempt a3.lamports a3.data.length = true)
    (h4 : Escrow.unpack_unchecked a3.data = Except.ok esc)
    (h5 : esc.is_initialized = true) :
    process_init_escrow (a0 :: a1 :: a2 :: a3 :: a4 :: rest) amount pid rent
        dOk =
      ⟨Except.error ProgramError.AccountAlreadyInitialized,
        a0 :: a1 :: a2 :: a3 :: a4 :: rest, []⟩ := by
  simp [process_init_escrow, nextAccount, h0, h2, h3, h4, h5]

/-- Exit path of record decoding (`processor.rs` line 70): a storage
buffer of the wrong length fails to decode and the error propagates. -/
theorem process_init_escrow_unpack_err (a0 a1 a2 a3 a4 : AccountInfo)
    (rest : List AccountInfo) (amount : Nat) (pid : Pubkey) (rent : Rent)
    (dOk : Bool) (e : ProgramError) (h0 : a0.is_signer = true)
    (h2 : a2.owner = spl_token_id)
    (h3 : rent.is_exempt a3.lamports a3.data.length = true)
    (h4 : Escrow.unpack_unchecked a3.data = Except.error e) :
    process_init_escrow (a0 :: a1 :: a2 :: a3 :: a4 :: rest) amount pid rent
        dOk =
      ⟨Except.error e, a0 :: a1 :: a2 :: a3 :: a4 :: rest, []⟩ := by
  simp [process_init_escrow, nextAccount, h0, h2, h3, h4]

/-- A five-account call on which every check passes: the record write is
staged (line 82) and then the token-program fetch (line 86) exhausts the
iterator, so the call fails after the staged write. -/
theorem process_init_escrow_five (a0 a1 a2 a3 a4 : AccountInfo)
    (amount : Nat) (pid : Pubkey) (rent : Rent) (dOk : Bool) (esc : Escrow)
    (h0 : a0.is_signer = true) (h2 : a2.owner = spl_token_id)
    (h3 : rent.is_exempt a3.lamports a3.data.length = true)
    (h4 : Escrow.unpack_unchecked a3.data = Except.ok esc)
    (h5 : esc.is_initialized = false) :
    process_init_escrow [a0, a1, a2, a3, a4] amount pid rent dOk =
      ⟨Except.error ProgramError.NotEnoughAccountKeys,
        [a0, a1, a2,
          { a3 with data := Escrow.pack ⟨true, a0.key, a1.key, a2.key, amount⟩ },
          a4], []⟩ := by
  simp [process_init_escrow, nextAccount, h0, h2, h3, h4, h5]

/-- The fully successful run (`processor.rs` lines 75–118): the record is
packed into the escrow account's data and one `set_authority` instruction
is issued. -/
theorem process_init_escrow_ok (a0 a1 a2 a3 a4 a5 : AccountInfo)
    (rest : List AccountInfo) (amount : Nat) (pid : Pubkey) (rent : Rent)
    (esc : Escrow) (h0 : a0.is_signer = true) (h2 : a2.owner = spl_token_id)
    (h3 : rent.is_exempt a3.lamports a3.data.length = true)
    (h4 : Escrow.unpack_unchecked a3.data = Except.ok esc)
    (h5 : esc.is_initialized = false) :
    process_init_escrow (a0 :: a1 :: a2 :: a3 :: a4 :: a5 :: rest) amount pid
        rent true =
      ⟨Except.ok (),
        a0 :: a1 :: a2 ::
          { a3 with data := Escrow.pack ⟨true, a0.key, a1.key, a2.key, amount⟩ }
          :: a4 :: a5 :: rest,
        [set_authority a5.key a1.key
          (some (find_program_address [escrowTag] pid).1)
          AuthorityType.AccountOwner a0.key [a0.key]]⟩ := by
  simp [process_init_escrow, nextAccount, set_authority, h0, h2, h3, h4, h5]

/-- The run in which every check passes but the external delegation call
fails: the staged record write is present in the raw post-state and the
error propagates (`processor.rs` lines 109–116). -/
theorem process_init_escrow_delegation_fails (a0 a1 a2 a3 a4 a5 : AccountInfo)
    (rest : List AccountInfo) (amount : Nat) (pid : Pubkey) (rent : Rent)
    (esc : Escrow) (h0 : a0.is_signer = true) (h2 : a2.owner = spl_token_id)
    (h3 : rent.is_exempt a3.lamports a3.data.length = true)
    (h4 : Escrow.unpack_unchecked a3.data = Except.ok esc)
    (h5 : esc.is_initialized = false) :
    process_init_escrow (a0 :: a1 :: a2 :: a3 :: a4 :: a5 :: rest) amount pid
        rent false =
      ⟨Except.error ProgramError.DelegationFailed,
        a0 :: a1 :: a2 ::
          { a3 with data := Escrow.pack ⟨true, a0.key, a1.key, a2.key, amount⟩ }
          :: a4 :: a5 :: rest,
        [set_authority a5.key a1.key
          (some (find_program_address [escrowTag] pid).1)
          AuthorityType.AccountOwner a0.key [a0.key]]⟩ := by
  simp [process_init_escrow, nextAccount, set_authority, h0, h2, h3, h4, h5]

/-!
## Claims

One theorem per claim of the specification, each preceded by the claim id
and its property in natural language.
-/

/-- C1: for every input where all preconditions pass but the external
delegation call fails, the whole initialization call fails with
DelegationFailed and the escrow-record storage bytes remain byte-identical
to their pre-call state — the environment's all-or-nothing call semantics
(`init_escrow_call`) discard the staged record write that `processor.rs`
performs at line 82 before the delegation call. -/
theorem init_escrow_delegation_failure_rolls_back
    (a0 a1 a2 a3 a4 a5 : AccountInfo) (rest : List AccountInfo)
    (amount : Nat) (pid : Pubkey) (rent : Rent) (esc : Escrow)
    (h0 : a0.is_signer = true) (h2 : a2.owner = spl_token_id)
    (h3 : rent.is_exempt a3.lamports a3.data.length = true)
    (h4 : Escrow.unpack_unchecked a3.data = Except.ok esc)
    (h5 : esc.is_initialized = false) :
    (process_init_escrow (a0 :: a1 :: a2 :: a3 :: a4 :: a5 :: rest) amount
        pid rent false).result = Except.error ProgramError.DelegationFailed ∧
    (init_escrow_call (a0 :: a1 :: a2 :: a3 :: a4 :: a5 :: rest) amount pid
        rent false).accounts = a0 :: a1 :: a2 :: a3 :: a4 :: a5 :: rest ∧
    escrowDataAt (init_escrow_call (a0 :: a1 :: a2 :: a3 :: a4 :: a5 :: rest)
        amount pid rent false).accounts = a3.data := by
  have h := process_init_escrow_delegation_fails a0 a1 a2 a3 a4 a5 rest amount
    pid rent esc h0 h2 h3 h4 h5
  refine ⟨by rw [h], ?_, ?_⟩
  · simp [init_escrow_call, h]
  · simp [init_escrow_call, h, escrowDataAt]

/-- Witness for C1 at the sample input. -/
theorem init_escrow_delegation_failure_rolls_back_witness :
    (sampleInitializer.is_signer = true ∧
      sampleRecv.owner = spl_token_id ∧
      rentAlways.is_exempt sampleEscrowAcc.lamports
        sampleEscrowAcc.data.length = true ∧
      Escrow.unpack_unchecked sampleEscrowAcc.data = Except.ok escrowZero ∧
      escrowZero.is_initialized = false) ∧
    ((process_init_escrow sampleAccounts 1000000 kProgram rentAlways
        false).result = Except.error ProgramError.DelegationFailed ∧
      (init_escrow_call sampleAccounts 1000000 kProgram rentAlways
        false).accounts = sampleAccounts ∧
      escrowDataAt (init_escrow_call sampleAccounts 1000000 kProgram
        rentAlways false).accounts = sampleEscrowAcc.data) :=
  ⟨⟨rfl, rfl, rfl, by decide, rfl⟩,
    init_escrow_delegation_failure_rolls_back sampleInitializer sampleTemp
      sampleRecv sampleEscrowAcc sampleRentAcc sampleTokenProg [] 1000000
      kProgram rentAlways escrowZero rfl rfl rfl (by decide) rfl⟩

/-- C2: for every input with fresh record storage (all-zero bytes,
rent-exempt balance), a signing initializer and a receiving account owned
by the expected custody service, initialization succeeds; the persisted
record decodes with is_initialized = true, expected_amount = amount,
initializer_identity = the caller's identity, and the holding- and
receiving-account identities equal to the position-1 and position-2
references; and exactly one delegation call is issued. -/
theorem init_escrow_fresh_record_success
    (a0 a1 a2 a3 a4 a5 : AccountInfo) (rest : List AccountInfo)
    (amount : Nat) (pid : Pubkey) (rent : Rent)
    (h0 : a0.is_signer = true) (h2 : a2.owner = spl_token_id)
    (hfresh : a3.data = List.replicate Escrow.LEN 0)
    (h3 : rent.is_exempt a3.lamports a3.data.length = true)
    (hk0 : a0.key.length = 32) (hk1 : a1.key.length = 32)
    (hk2 : a2.key.length = 32) (hamt : amount < 2 ^ 64) :
    (process_init_escrow (a0 :: a1 :: a2 :: a3 :: a4 :: a5 :: rest) amount
        pid rent true).result = Except.ok () ∧
    Escrow.unpack_unchecked (escrowDataAt
        (process_init_escrow (a0 :: a1 :: a2 :: a3 :: a4 :: a5 :: rest)
          amount pid rent true).accounts) =
      Except.ok ⟨true, a0.key, a1.key, a2.key, amount⟩ ∧
    (process_init_escrow (a0 :: a1 :: a2 :: a3 :: a4 :: a5 :: rest) amount
        pid rent true).delegations.length = 1 := by
  have h4 : Escrow.unpack_unchecked a3.data = Except.ok escrowZero := by
    rw [hfresh]; decide
  have h := process_init_escrow_ok a0 a1 a2 a3 a4 a5 rest amount pid rent
    escrowZero h0 h2 h3 h4 rfl
  refine ⟨by rw [h], ?_, by rw [h]; rfl⟩
  rw [h]
  show Escrow.unpack_unchecked
      (Escrow.pack ⟨true, a0.key, a1.key, a2.key, amount⟩) =
    Except.ok ⟨true, a0.key, a1.key, a2.key, amount⟩
  exact Escrow.unpack_unchecked_pack _ hk0 hk1 hk2 hamt

/-- Witness for C2 at the sample input with amount 1000000. -/
theorem init_escrow_fresh_record_success_witness :
    (sampleInitializer.is_signer = true ∧
      sampleRecv.owner = spl_token_id ∧
      sampleEscrowAcc.data = List.replicate Escrow.LEN 0 ∧
      rentAlways.is_exempt sampleEscrowAcc.lamports
        sampleEscrowAcc.data.length = true ∧
      sampleInitializer.key.length = 32 ∧ sampleTemp.key.length = 32 ∧
      sampleRecv.key.length = 32 ∧ 1000000 < 2 ^ 64) ∧
    ((process_init_escrow sampleAccounts 1000000 kProgram rentAlways
        true).result = Except.ok () ∧
      Escrow.unpack_unchecked (escrowDataAt
          (process_init_escrow sampleAccounts 1000000 kProgram rentAlways
            true).accounts) =
        Except.ok ⟨true, sampleInitializer.key, sampleTemp.key,
          sampleRecv.key, 1000000⟩ ∧
      (process_init_escrow sampleAccounts 1000000 kProgram rentAlways
        true).delegations.length = 1) :=
  ⟨⟨rfl, rfl, rfl, rfl, by decide, by decide, by decide, by decide⟩,
    init_escrow_fresh_record_success sampleInitializer sampleTemp sampleRecv
      sampleEscrowAcc sampleRentAcc sampleTokenProg [] 1000000 kProgram
      rentAlways rfl rfl rfl rfl (by decide) (by decide) (by decide)
      (by decide)⟩

/-- C3: a second Initialize call on a record whose stored is_initialized
field is already true fails with AlreadyInitialized and leaves the
record's bytes byte-for-byte unchanged (indeed the raw run mutates no
account at all), so is_initialized can transition false→true at most once:
every execution that starts from an already-marked record fails without
mutation. -/
theorem init_escrow_already_marked_rejected
    (a0 a1 a2 a3 a4 : AccountInfo) (rest : List AccountInfo)
    (amount : Nat) (pid : Pubkey) (rent : Rent) (dOk : Bool) (esc : Escrow)
    (h0 : a0.is_signer = true) (h2 : a2.owner = spl_token_id)
    (h3 : rent.is_exempt a3.lamports a3.data.length = true)
    (h4 : Escrow.unpack_unchecked a3.data = Except.ok esc)
    (h5 : esc.is_initialized = true) :
    process_init_escrow (a0 :: a1 :: a2 :: a3 :: a4 :: rest) amount pid rent
        dOk =
      ⟨Except.error ProgramError.AccountAlreadyInitialized,
        a0 :: a1 :: a2 :: a3 :: a4 :: rest, []⟩ ∧
    escrowDataAt (init_escrow_call (a0 :: a1 :: a2 :: a3 :: a4 :: rest)
        amount pid rent dOk).accounts = a3.data := by
  have h := process_init_escrow_already a0 a1 a2 a3 a4 rest amount pid rent
    dOk esc h0 h2 h3 h4 h5
  exact ⟨h, by simp [init_escrow_call, h, escrowDataAt]⟩

/-- Witness for C3 at a sample input whose record storage holds a packed,
already-initialized record. -/
theorem init_escrow_already_marked_rejected_witness :
    (sampleInitializer.is_signer = true ∧
      sampleRecv.owner = spl_token_id ∧
      rentAlways.is_exempt sampleEscrowAccUsed.lamports
        sampleEscrowAccUsed.data.length = true ∧
      Escrow.unpack_unchecked sampleEscrowAccUsed.data =
        Except.ok ⟨true, kOther, kTemp, kRecv, 42⟩ ∧
      (⟨true, kOther, kTemp, kRecv, 42⟩ : Escrow).is_initialized = true) ∧
    (process_init_escrow
        [sampleInitializer, sampleTemp, sampleRecv, sampleEscrowAccUsed,
          sampleRentAcc] 1000000 kProgram rentAlways true =
      ⟨Except.error ProgramError.AccountAlreadyInitialized,
        [sampleInitializer, sampleTemp, sampleRecv, sampleEscrowAccUsed,
          sampleRentAcc], []⟩ ∧
      escrowDataAt (init_escrow_call
          [sampleInitializer, sampleTemp, sampleRecv, sampleEscrowAccUsed,
            sampleRentAcc] 1000000 kProgram rentAlways true).accounts =
        sampleEscrowAccUsed.data) :=
  ⟨⟨rfl, rfl, rfl, by decide, rfl⟩,
    init_escrow_already_marked_rejected sampleInitializer sampleTemp
      sampleRecv sampleEscrowAccUsed sampleRentAcc [] 1000000 kProgram
      rentAlways true ⟨true, kOther, kTemp, kRecv, 42⟩ rfl rfl rfl
      (by decide) rfl⟩

/-- C4: for every input violating at least one of the four preconditions,
initialization returns exactly one error value identifying the first
violated precondition in the fixed order — signer check, custody-service
ownership of the receiving account, rent exemption, double
initialization — with the first violation winning and no state change. -/
theorem init_escrow_first_violation_wins
    (a0 a1 a2 a3 a4 : AccountInfo) (rest : List AccountInfo)
    (amount : Nat) (pid : Pubkey) (rent : Rent) (dOk : Bool) (esc : Escrow)
    (hdec : Escrow.unpack_unchecked a3.data = Except.ok esc)
    (hviol : a0.is_signer = false ∨ a2.owner ≠ spl_token_id ∨
      rent.is_exempt a3.lamports a3.data.length = false ∨
      esc.is_initialized = true) :
    process_init_escrow (a0 :: a1 :: a2 :: a3 :: a4 :: rest) amount pid rent
        dOk =
      ⟨Except.error (firstViolation a0 a2 a3 rent),
        a0 :: a1 :: a2 :: a3 :: a4 :: rest, []⟩ := by
  cases hsig : a0.is_signer with
  | false =>
    rw [process_init_escrow_not_signer a0 (a1 :: a2 :: a3 :: a4 :: rest)
      amount pid rent dOk hsig]
    simp [firstViolation, hsig]
  | true =>
    by_cases ho : a2.owner = spl_token_id
    · cases hex : rent.is_exempt a3.lamports a3.data.length with
      | false =>
        rw [process_init_escrow_not_exempt a0 a1 a2 a3 a4 rest amount pid
          rent dOk hsig ho hex]
        simp [firstViolation, hsig, ho, hex]
      | true =>
        have hinit : esc.is_initialized = true := by
          rcases hviol with h | h | h | h
          · simp [hsig] at h
          · exact absurd ho h
          · simp [hex] at h
          · exact h
        rw [process_init_escrow_already a0 a1 a2 a3 a4 rest amount pid rent
          dOk esc hsig ho hex hdec hinit]
        simp [firstViolation, hsig, ho, hex]
    · rw [process_init_escrow_wrong_owner a0 a1 a2 (a3 :: a4 :: rest) amount
        pid rent dOk hsig ho]
      simp [firstViolation, hsig, ho]

/-- Witness for C4: an unsigned initializer is reported as the first
violation. -/
theorem init_escrow_first_violation_wins_witness :
    (Escrow.unpack_unchecked sampleEscrowAcc.data = Except.ok escrowZero ∧
      (sampleUnsigned.is_signer = false ∨
        sampleRecv.owner ≠ spl_token_id ∨
        rentAlways.is_exempt sampleEscrowAcc.lamports
          sampleEscrowAcc.data.length = false ∨
        escrowZero.is_initialized = true)) ∧
    process_init_escrow
        [sampleUnsigned, sampleTemp, sampleRecv, sampleEscrowAcc,
          sampleRentAcc] 5 kProgram rentAlways true =
      ⟨Except.error
          (firstViolation sampleUnsigned sampleRecv sampleEscrowAcc
            rentAlways),
        [sampleUnsigned, sampleTemp, sampleRecv, sampleEscrowAcc,
          sampleRentAcc], []⟩ :=
  ⟨⟨by decide, Or.inl rfl⟩,
    init_escrow_first_violation_wins sampleUnsigned sampleTemp sampleRecv
      sampleEscrowAcc sampleRentAcc [] 5 kProgram rentAlways true escrowZero
      (by decide) (Or.inl rfl)⟩

/-- C5: on every successful initialization exactly one delegation call is
issued to the asset-custody service, over the position-5 token program,
changing the controlling authority of the position-1 holding account from
the initializer to the derived authority computed from the tag "escrow"
and the executing program's own identity. -/
theorem init_escrow_success_delegation_unique
    (a0 a1 a2 a3 a4 a5 : AccountInfo) (rest : List AccountInfo)
    (amount : Nat) (pid : Pubkey) (rent : Rent) (dOk : Bool)
    (hok : (process_init_escrow (a0 :: a1 :: a2 :: a3 :: a4 :: a5 :: rest)
        amount pid rent dOk).result = Except.ok ()) :
    (process_init_escrow (a0 :: a1 :: a2 :: a3 :: a4 :: a5 :: rest) amount
        pid rent dOk).delegations =
      [set_authority a5.key a1.key
        (some (find_program_address [escrowTag] pid).1)
        AuthorityType.AccountOwner a0.key [a0.key]] := by
  cases hsig : a0.is_signer with
  | false =>
    rw [process_init_escrow_not_signer a0 (a1 :: a2 :: a3 :: a4 :: a5 :: rest)
      amount pid rent dOk hsig] at hok
    simp at hok
  | true =>
    by_cases ho : a2.owner = spl_token_id
    · cases hex : rent.is_exempt a3.lamports a3.data.length with
      | false =>
        rw [process_init_escrow_not_exempt a0 a1 a2 a3 a4 (a5 :: rest) amount
          pid rent dOk hsig ho hex] at hok
        simp at hok
      | true =>
        cases hu : Escrow.unpack_unchecked a3.data with
        | error e =>
          rw [process_init_escrow_unpack_err a0 a1 a2 a3 a4 (a5 :: rest)
            amount pid rent dOk e hsig ho hex hu] at hok
          simp at hok
        | ok esc =>
          cases hinit : esc.is_initialized with
          | true =>
            rw [process_init_escrow_already a0 a1 a2 a3 a4 (a5 :: rest)
              amount pid rent dOk esc hsig ho hex hu hinit] at hok
            simp at hok
          | false =>
            cases dOk with
            | false =>
              rw [process_init_escrow_delegation_fails a0 a1 a2 a3 a4 a5 rest
                amount pid rent esc hsig ho hex hu hinit] at hok
              simp at hok
            | true =>
              rw [process_init_escrow_ok a0 a1 a2 a3 a4 a5 rest amount pid
                rent esc hsig ho hex hu hinit]
    · rw [process_init_escrow_wrong_owner a0 a1 a2 (a3 :: a4 :: a5 :: rest)
        amount pid rent dOk hsig ho] at hok
      simp at hok

/-- Witness for C5 at the sample success input. -/
theorem init_escrow_success_delegation_unique_witness :
    (process_init_escrow sampleAccounts 1000000 kProgram rentAlways
        true).result = Except.ok () ∧
    (process_init_escrow sampleAccounts 1000000 kProgram rentAlways
        true).delegations =
      [set_authority sampleTokenProg.key sampleTemp.key
        (some (find_program_address [escrowTag] kProgram).1)
        AuthorityType.AccountOwner sampleInitializer.key
        [sampleInitializer.key]] :=
  ⟨by decide,
    init_escrow_success_delegation_unique sampleInitializer sampleTemp
      sampleRecv sampleEscrowAcc sampleRentAcc sampleTokenProg [] 1000000
      kProgram rentAlways true (by decide)⟩

/-- C6 counterexample: a call supplying only one account reference whose
account is not a signer fails with the signature error, not the
missing-account error — so a short reference list does not always produce
the "missing account" failure. -/
theorem init_escrow_short_list_counterexample :
    ([sampleUnsigned] : List AccountInfo).length < 6 ∧
    (process_init_escrow [sampleUnsigned] 5 kProgram rentAlways
      true).result = Except.error ProgramError.MissingRequiredSignature ∧
    ¬ (process_init_escrow [sampleUnsigned] 5 kProgram rentAlways
      true).result = Except.error ProgramError.NotEnoughAccountKeys := by
  decide

/-- C6 (amended): every call supplying fewer than 6 account references
fails and commits nothing to the accounts; the failure is the
missing-account error whenever no validation reachable with the supplied
prefix fails first (exhibited here by the five-account case on which all
four checks pass), but an earlier validation failure wins otherwise. -/
theorem init_escrow_short_list_fails
    (accounts : List AccountInfo) (amount : Nat) (pid : Pubkey) (rent : Rent)
    (dOk : Bool) (hlen : accounts.length < 6) :
    (∃ e, (process_init_escrow accounts amount pid rent dOk).result =
      Except.error e) ∧
    (init_escrow_call accounts amount pid rent dOk).accounts = accounts ∧
    (∀ a0 a1 a2 a3 a4 esc, accounts = [a0, a1, a2, a3, a4] →
      a0.is_signer = true → a2.owner = spl_token_id →
      rent.is_exempt a3.lamports a3.data.length = true →
      Escrow.unpack_unchecked a3.data = Except.ok esc →
      esc.is_initialized = false →
      (process_init_escrow accounts amount pid rent dOk).result =
        Except.error ProgramError.NotEnoughAccountKeys) := by
  have hfail : ∃ e, (process_init_escrow accounts amount pid rent dOk).result
      = Except.error e := by
    rcases accounts with _ | ⟨a0, _ | ⟨a1, _ | ⟨a2, _ | ⟨a3, _ | ⟨a4, _ |
      ⟨a5, rest⟩⟩⟩⟩⟩⟩
    · exact ⟨ProgramError.NotEnoughAccountKeys, rfl⟩
    · cases hsig : a0.is_signer with
      | false => exact ⟨ProgramError.MissingRequiredSignature,
          by rw [process_init_escrow_not_signer a0 [] amount pid rent dOk
            hsig]⟩
      | true => exact ⟨ProgramError.NotEnoughAccountKeys,
          by simp [process_init_escrow, nextAccount, hsig]⟩
    · cases hsig : a0.is_signer with
      | false => exact ⟨ProgramError.MissingRequiredSignature,
          by rw [process_init_escrow_not_signer a0 [a1] amount pid rent dOk
            hsig]⟩
      | true => exact ⟨ProgramError.NotEnoughAccountKeys,
          by simp [process_init_escrow, nextAccount, hsig]⟩
    · cases hsig : a0.is_signer with
      | false => exact ⟨ProgramError.MissingRequiredSignature,
          by rw [process_init_escrow_not_signer a0 [a1, a2] amount pid rent
            dOk hsig]⟩
      | true =>
        by_cases ho : a2.owner = spl_token_id
        · exact ⟨ProgramError.NotEnoughAccountKeys,
            by simp [process_init_escrow, nextAccount, hsig, ho]⟩
        · exact ⟨ProgramError.IncorrectProgramId,
            by rw [process_init_escrow_wrong_owner a0 a1 a2 [] amount pid
              rent dOk hsig ho]⟩
    · cases hsig : a0.is_signer with
      | false => exact ⟨ProgramError.MissingRequiredSignature,
          by rw [process_init_escrow_not_signer a0 [a1, a2, a3] amount pid
            rent dOk hsig]⟩
      | true =>
        by_cases ho : a2.owner = spl_token_id
        · exact ⟨ProgramError.NotEnoughAccountKeys,
            by simp [process_init_escrow, nextAccount, hsig, ho]⟩
        · exact ⟨ProgramError.IncorrectProgramId,
            by rw [process_init_escrow_wrong_owner a0 a1 a2 [a3] amount pid
              rent dOk hsig ho]⟩
    · cases hsig : a0.is_signer with
      | false => exact ⟨ProgramError.MissingRequiredSignature,
          by rw [process_init_escrow_not_signer a0 [a1, a2, a3, a4] amount
            pid rent dOk hsig]⟩
      | true =>
        by_cases ho : a2.owner = spl_token_id
        · cases hex : rent.is_exempt a3.lamports a3.data.length with
          | false => exact ⟨ProgramError.NotRentExempt,
              by rw [process_init_escrow_not_exempt a0 a1 a2 a3 a4 [] amount
                pid rent dOk hsig ho hex]⟩
          | true =>
            cases hu : Escrow.unpack_unchecked a3.data with
            | error e => exact ⟨e,
                by rw [process_init_escrow_unpack_err a0 a1 a2 a3 a4 []
                  amount pid rent dOk e hsig ho hex hu]⟩
            | ok esc =>
              cases hinit : esc.is_initialized with
              | true => exact ⟨ProgramError.AccountAlreadyInitialized,
                  by rw [process_init_escrow_already a0 a1 a2 a3 a4 [] amount
                    pid rent dOk esc hsig ho hex hu hinit]⟩
              | false => exact ⟨ProgramError.NotEnoughAccountKeys,
                  by rw [process_init_escrow_five a0 a1 a2 a3 a4 amount pid
                    rent dOk esc hsig ho hex hu hinit]⟩
        · exact ⟨ProgramError.IncorrectProgramId,
            by rw [process_init_escrow_wrong_owner a0 a1 a2 [a3, a4] amount
              pid rent dOk hsig ho]⟩
    · simp only [List.length_cons] at hlen
      omega
  refine ⟨hfail, ?_, ?_⟩
  · obtain ⟨e, he⟩ := hfail
    simp [init_escrow_call, he]
  · intro a0 a1 a2 a3 a4 esc heq h0s h2s h3s h4s h5s
    subst heq
    rw [process_init_escrow_five a0 a1 a2 a3 a4 amount pid rent dOk esc h0s
      h2s h3s h4s h5s]

/-- Witness for C6 (amended) at a one-account call. -/
theorem init_escrow_short_list_fails_witness :
    ([sampleUnsigned] : List AccountInfo).length < 6 ∧
    ((∃ e, (process_init_escrow [sampleUnsigned] 5 kProgram rentAlways
        true).result = Except.error e) ∧
      (init_escrow_call [sampleUnsigned] 5 kProgram rentAlways
        true).accounts = [sampleUnsigned] ∧
      (∀ a0 a1 a2 a3 a4 esc,
        ([sampleUnsigned] : List AccountInfo) = [a0, a1, a2, a3, a4] →
        a0.is_signer = true → a2.owner = spl_token_id →
        rentAlways.is_exempt a3.lamports a3.data.length = true →
        Escrow.unpack_unchecked a3.data = Except.ok esc →
        esc.is_initialized = false →
        (process_init_escrow [sampleUnsigned] 5 kProgram rentAlways
          true).result = Except.error ProgramError.NotEnoughAccountKeys)) :=
  ⟨by decide,
    init_escrow_short_list_fails [sampleUnsigned] 5 kProgram rentAlways true
      (by decide)⟩

/-- C7: for every input whose position-0 initializer reference does not
carry a verified signature, initialization fails with MissingSignature
(the source's `MissingRequiredSignature`) and the record storage bytes are
unchanged — indeed the raw run leaves every account untouched and issues
no delegation. -/
theorem init_escrow_unsigned_initializer_fails
    (a0 : AccountInfo) (rest : List AccountInfo) (amount : Nat)
    (pid : Pubkey) (rent : Rent) (dOk : Bool) (h0 : a0.is_signer = false) :
    process_init_escrow (a0 :: rest) amount pid rent dOk =
      ⟨Except.error ProgramError.MissingRequiredSignature, a0 :: rest, []⟩ ∧
    escrowDataAt (init_escrow_call (a0 :: rest) amount pid rent
        dOk).accounts = escrowDataAt (a0 :: rest) := by
  have h := process_init_escrow_not_signer a0 rest amount pid rent dOk h0
  exact ⟨h, by simp [init_escrow_call, h]⟩

/-- Witness for C7 at the sample input with an unsigned initializer. -/
theorem init_escrow_unsigned_initializer_fails_witness :
    sampleUnsigned.is_signer = false ∧
    (process_init_escrow
        (sampleUnsigned ::
          [sampleTemp, sampleRecv, sampleEscrowAcc, sampleRentAcc,
            sampleTokenProg]) 1000000 kProgram rentAlways true =
      ⟨Except.error ProgramError.MissingRequiredSignature,
        sampleUnsigned ::
          [sampleTemp, sampleRecv, sampleEscrowAcc, sampleRentAcc,
            sampleTokenProg], []⟩ ∧
      escrowDataAt (init_escrow_call
          (sampleUnsigned ::
            [sampleTemp, sampleRecv, sampleEscrowAcc, sampleRentAcc,
              sampleTokenProg]) 1000000 kProgram rentAlways true).accounts =
        escrowDataAt
          (sampleUnsigned ::
            [sampleTemp, sampleRecv, sampleEscrowAcc, sampleRentAcc,
              sampleTokenProg])) :=
  ⟨rfl,
    init_escrow_unsigned_initializer_fails sampleUnsigned
      [sampleTemp, sampleRecv, sampleEscrowAcc, sampleRentAcc,
        sampleTokenProg] 1000000 kProgram rentAlways true rfl⟩

/-- C8: for every input whose position-2 receiving account is owned by a
different custody service than the expected one, no custody delegation
call is ever issued and the call fails; when the earlier signer check
passes (the spec's fail-fast order), the error is WrongCustodyService
(the source's `IncorrectProgramId`). -/
theorem init_escrow_wrong_custody_service_fails
    (a0 a1 a2 : AccountInfo) (rest : List AccountInfo) (amount : Nat)
    (pid : Pubkey) (rent : Rent) (dOk : Bool)
    (h2 : a2.owner ≠ spl_token_id) :
    (process_init_escrow (a0 :: a1 :: a2 :: rest) amount pid rent
        dOk).delegations = [] ∧
    (∃ e, (process_init_escrow (a0 :: a1 :: a2 :: rest) amount pid rent
        dOk).result = Except.error e) ∧
    (a0.is_signer = true →
      process_init_escrow (a0 :: a1 :: a2 :: rest) amount pid rent dOk =
        ⟨Except.error ProgramError.IncorrectProgramId,
          a0 :: a1 :: a2 :: rest, []⟩) := by
  cases hsig : a0.is_signer with
  | false =>
    have h := process_init_escrow_not_signer a0 (a1 :: a2 :: rest) amount pid
      rent dOk hsig
    exact ⟨by rw [h], ⟨ProgramError.MissingRequiredSignature, by rw [h]⟩,
      fun hs => absurd hs (by simp [hsig])⟩
  | true =>
    have h := process_init_escrow_wrong_owner a0 a1 a2 rest amount pid rent
      dOk hsig h2
    exact ⟨by rw [h], ⟨ProgramError.IncorrectProgramId, by rw [h]⟩,
      fun _ => h⟩

/-- Witness for C8 at the sample input with a wrongly owned receiving
account. -/
theorem init_escrow_wrong_custody_service_fails_witness :
    sampleRecvWrongOwner.owner ≠ spl_token_id ∧
    ((process_init_escrow
        (sampleInitializer :: sampleTemp :: sampleRecvWrongOwner ::
          [sampleEscrowAcc, sampleRentAcc, sampleTokenProg]) 1000000 kProgram
        rentAlways true).delegations = [] ∧
      (∃ e, (process_init_escrow
          (sampleInitializer :: sampleTemp :: sampleRecvWrongOwner ::
            [sampleEscrowAcc, sampleRentAcc, sampleTokenProg]) 1000000
          kProgram rentAlways true).result = Except.error e) ∧
      (sampleInitializer.is_signer = true →
        process_init_escrow
            (sampleInitializer :: sampleTemp :: sampleRecvWrongOwner ::
              [sampleEscrowAcc, sampleRentAcc, sampleTokenProg]) 1000000
            kProgram rentAlways true =
          ⟨Except.error ProgramError.IncorrectProgramId,
            sampleInitializer :: sampleTemp :: sampleRecvWrongOwner ::
              [sampleEscrowAcc, sampleRentAcc, sampleTokenProg], []⟩)) :=
  ⟨by decide,
    init_escrow_wrong_custody_service_fails sampleInitializer sampleTemp
      sampleRecvWrongOwner [sampleEscrowAcc, sampleRentAcc, sampleTokenProg]
      1000000 kProgram rentAlways true (by decide)⟩

/-- C9: for every input (passing the earlier signer and ownership checks,
per the spec's fail-fast order) whose record storage balance the rent
oracle deems insufficient for exemption, initialization fails with the
domain-specific NotRentExempt error, which is distinct from every generic
error value. -/
theorem init_escrow_not_rent_exempt_fails
    (a0 a1 a2 a3 a4 : AccountInfo) (rest : List AccountInfo) (amount : Nat)
    (pid : Pubkey) (rent : Rent) (dOk : Bool)
    (h0 : a0.is_signer = true) (h2 : a2.owner = spl_token_id)
    (h3 : rent.is_exempt a3.lamports a3.data.length = false) :
    process_init_escrow (a0 :: a1 :: a2 :: a3 :: a4 :: rest) amount pid rent
        dOk =
      ⟨Except.error ProgramError.NotRentExempt,
        a0 :: a1 :: a2 :: a3 :: a4 :: rest, []⟩ ∧
    (ProgramError.NotRentExempt ≠ ProgramError.MissingRequiredSignature ∧
      ProgramError.NotRentExempt ≠ ProgramError.IncorrectProgramId ∧
      ProgramError.NotRentExempt ≠ ProgramError.NotEnoughAccountKeys ∧
      ProgramError.NotRentExempt ≠ ProgramError.AccountAlreadyInitialized ∧
      ProgramError.NotRentExempt ≠ ProgramError.InvalidAccountData ∧
      ProgramError.NotRentExempt ≠ ProgramError.InvalidInstruction ∧
      ProgramError.NotRentExempt ≠ ProgramError.DelegationFailed) :=
  ⟨process_init_escrow_not_exempt a0 a1 a2 a3 a4 rest amount pid rent dOk h0
      h2 h3,
    by decide⟩

/-- Witness for C9 under the never-exempt rent oracle. -/
theorem init_escrow_not_rent_exempt_fails_witness :
    (sampleInitializer.is_signer = true ∧
      sampleRecv.owner = spl_token_id ∧
      rentNever.is_exempt sampleEscrowAcc.lamports
        sampleEscrowAcc.data.length = false) ∧
    (process_init_escrow
        (sampleInitializer :: sampleTemp :: sampleRecv :: sampleEscrowAcc ::
          sampleRentAcc :: [sampleTokenProg]) 1000000 kProgram rentNever
        true =
      ⟨Except.error ProgramError.NotRentExempt,
        sampleInitializer :: sampleTemp :: sampleRecv :: sampleEscrowAcc ::
          sampleRentAcc :: [sampleTokenProg], []⟩ ∧
      (ProgramError.NotRentExempt ≠ ProgramError.MissingRequiredSignature ∧
        ProgramError.NotRentExempt ≠ ProgramError.IncorrectProgramId ∧
        ProgramError.NotRentExempt ≠ ProgramError.NotEnoughAccountKeys ∧
        ProgramError.NotRentExempt ≠ ProgramError.AccountAlreadyInitialized ∧
        ProgramError.NotRentExempt ≠ ProgramError.InvalidAccountData ∧
        ProgramError.NotRentExempt ≠ ProgramError.InvalidInstruction ∧
        ProgramError.NotRentExempt ≠ ProgramError.DelegationFailed)) :=
  ⟨⟨rfl, rfl, rfl⟩,
    init_escrow_not_rent_exempt_fails sampleInitializer sampleTemp sampleRecv
      sampleEscrowAcc sampleRentAcc [sampleTokenProg] 1000000 kProgram
      rentNever true rfl rfl rfl⟩

/-- C10: the position-1 holding-account reference is never validated: two
inputs that differ only in that account's owner, signer flag or data
contents produce the same result, the same delegation trace, and the same
record-storage bytes — the account is read only for its public key. -/
theorem init_escrow_holding_account_never_validated
    (a0 a1 a2 a3 a4 a5 : AccountInfo) (rest : List AccountInfo)
    (amount : Nat) (pid : Pubkey) (rent : Rent) (dOk : Bool)
    (o : Pubkey) (s : Bool) (d : List Nat) :
    (process_init_escrow
        (a0 :: { a1 with owner := o, is_signer := s, data := d } :: a2 ::
          a3 :: a4 :: a5 :: rest) amount pid rent dOk).result =
      (process_init_escrow (a0 :: a1 :: a2 :: a3 :: a4 :: a5 :: rest) amount
        pid rent dOk).result ∧
    (process_init_escrow
        (a0 :: { a1 with owner := o, is_signer := s, data := d } :: a2 ::
          a3 :: a4 :: a5 :: rest) amount pid rent dOk).delegations =
      (process_init_escrow (a0 :: a1 :: a2 :: a3 :: a4 :: a5 :: rest) amount
        pid rent dOk).delegations ∧
    escrowDataAt (process_init_escrow
        (a0 :: { a1 with owner := o, is_signer := s, data := d } :: a2 ::
          a3 :: a4 :: a5 :: rest) amount pid rent dOk).accounts =
      escrowDataAt (process_init_escrow
        (a0 :: a1 :: a2 :: a3 :: a4 :: a5 :: rest) amount pid rent
        dOk).accounts := by
  cases hsig : a0.is_signer with
  | false =>
    rw [process_init_escrow_not_signer a0
      ({ a1 with owner := o, is_signer := s, data := d } :: a2 :: a3 :: a4 ::
        a5 :: rest) amount pid rent dOk hsig,
      process_init_escrow_not_signer a0 (a1 :: a2 :: a3 :: a4 :: a5 :: rest)
        amount pid rent dOk hsig]
    exact ⟨rfl, rfl, rfl⟩
  | true =>
    by_cases ho : a2.owner = spl_token_id
    · cases hex : rent.is_exempt a3.lamports a3.data.length with
      | false =>
        rw [process_init_escrow_not_exempt a0
          { a1 with owner := o, is_signer := s, data := d } a2 a3 a4
          (a5 :: rest) amount pid rent dOk hsig ho hex,
          process_init_escrow_not_exempt a0 a1 a2 a3 a4 (a5 :: rest) amount
            pid rent dOk hsig ho hex]
        exact ⟨rfl, rfl, rfl⟩
      | true =>
        cases hu : Escrow.unpack_unchecked a3.data with
        | error e =>
          rw [process_init_escrow_unpack_err a0
            { a1 with owner := o, is_signer := s, data := d } a2 a3 a4
            (a5 :: rest) amount pid rent dOk e hsig ho hex hu,
            process_init_escrow_unpack_err a0 a1 a2 a3 a4 (a5 :: rest) amount
              pid rent dOk e hsig ho hex hu]
          exact ⟨rfl, rfl, rfl⟩
        | ok esc =>
          cases hinit : esc.is_initialized with
          | true =>
            rw [process_init_escrow_already a0
              { a1 with owner := o, is_signer := s, data := d } a2 a3 a4
              (a5 :: rest) amount pid rent dOk esc hsig ho hex hu hinit,
              process_init_escrow_already a0 a1 a2 a3 a4 (a5 :: rest) amount
                pid rent dOk esc hsig ho hex hu hinit]
            exact ⟨rfl, rfl, rfl⟩
          | false =>
            cases dOk with
            | false =>
              rw [process_init_escrow_delegation_fails a0
                { a1 with owner := o, is_signer := s, data := d } a2 a3 a4 a5
                rest amount pid rent esc hsig ho hex hu hinit,
                process_init_escrow_delegation_fails a0 a1 a2 a3 a4 a5 rest
                  amount pid rent esc hsig ho hex hu hinit]
              exact ⟨rfl, rfl, rfl⟩
            | true =>
              rw [process_init_escrow_ok a0
                { a1 with owner := o, is_signer := s, data := d } a2 a3 a4 a5
                rest amount pid rent esc hsig ho hex hu hinit,
                process_init_escrow_ok a0 a1 a2 a3 a4 a5 rest amount pid rent
                  esc hsig ho hex hu hinit]
              exact ⟨rfl, rfl, rfl⟩
    · rw [process_init_escrow_wrong_owner a0
        { a1 with owner := o, is_signer := s, data := d } a2
        (a3 :: a4 :: a5 :: rest) amount pid rent dOk hsig ho,
        process_init_escrow_wrong_owner a0 a1 a2 (a3 :: a4 :: a5 :: rest)
          amount pid rent dOk hsig ho]
      exact ⟨rfl, rfl, rfl⟩
